import Mathlib

/-
Verification of the request-dispatch core of the apiserver REST handler
(pkg/apiserver/resthandler.go): the verb/path-arity routing table, the
self-link rewriting protocol, the admission gate placement, and the
completion-status mapping.

Shallow embedding notes.  External collaborators (the selfLinker identity
accessor, the codec, the admission controller, the label-selector parse
function, the timeout parser, the operation registry and the backend
capability interfaces) are not part of the given source; they are carried
as function fields / concrete models faithful to their consumed contracts.
An index-out-of-range access in the Go source (a panic) is modelled as the
value `none` of an `Option` result, and it propagates to the caller the way
a panic would.  Go's in-place mutation of objects is modelled by returning
the updated object; a function that can both mutate and report an error
returns the pair of the object state reached and the optional error.
-/

set_option linter.unusedVariables false

namespace KubeAPIServer

/-- A runtime object as the dispatcher observes it: its namespace, name and
self-link fields behind the selfLinker accessor, flags that make the
corresponding accessor calls fail (the accessors are fallible in the
consumed contract), whether the object is a list type and its member items,
and whether it is an api.Status value carrying an embedded status code. -/
structure Obj where
  ns : String
  name : String
  selfLink : String
  nsErr : Bool := false
  nameErr : Bool := false
  setLinkErr : Bool := false
  isList : Bool := false
  items : List Obj
  isStatus : Bool := false
  statusCode : Nat := 0
deriving Repr

/-- The parts of net/url.URL that setSelfLink reads and writes. -/
structure URL where
  path : String
  rawQuery : String
  fragment : String
deriving Repr, DecidableEq

/-- An http.Request as handleRESTStorage consumes it.  The query parameters
`timeout`, `labels` and `fields` are carried as already-extracted fields
(their extraction is net/url's, outside the given source); `bodyErr` makes
the readBody helper fail. -/
structure Req where
  method : String
  url : URL
  timeoutParam : String
  labelsParam : String
  fieldsParam : String
  body : String
  bodyErr : Bool := false
deriving Repr, DecidableEq

/-- RESTResult: the single outcome of a backend action. -/
structure RESTResult where
  object : Obj
  created : Bool
deriving Repr

/-- Modelled from the spec: a backend result source (the channel returned by
Create/Update/Delete) as observed through the Operation Registry.
`completesWithin t` says whether the result arrives within a wait bound `t`,
and `placeholder` is the status body the operation handle exposes while the
result is still pending (the registry's internals are outside the source). -/
structure ResultSource where
  result : RESTResult
  completesWithin : Nat → Bool
  placeholder : Obj

/-- The operation handle the dispatcher queries after the bounded wait. -/
structure Operation where
  result : RESTResult
  complete : Bool
  placeholder : Obj

/-- admission.NewAttributesRecord(object, namespace, resource, operation). -/
structure AttributesRecord where
  object : Option Obj
  nsp : String
  resource : String
  operation : String
deriving Repr

/-- The error values the handler serializes: the structured
errors.NewMethodNotSupported(kind, action) value, and every other error
(selector parse, read, decode, admission, backend, self-link) carried with
its message. -/
inductive ApiErr where
  | methodNotSupported (kind action : String)
  | other (msg : String)
deriving Repr, DecidableEq

/-- The body written to the response writer. -/
inductive Body where
  | obj (o : Obj)
  | err (e : ApiErr)
  | notFoundMsg
deriving Repr

/-- The written response: HTTP status code plus body. -/
structure Response where
  status : Nat
  body : Body
deriving Repr

/-- Observable steps of one dispatch, recorded in order: a successful body
decode, an admission-control call with its attributes record, a backend
capability call, and a self-link rewrite invocation. -/
inductive Event where
  | decode
  | admission (att : AttributesRecord)
  | backend (cap : String)
  | selfLink
deriving Repr

/-- A RESTStorage backend: the capability interfaces RESTLister, RESTGetter,
RESTCreater, RESTUpdater, RESTDeleter are each an optional function (a `none`
means the interface assertion `storage.(RESTXxx)` fails), plus New(). -/
structure RESTStorage where
  newObj : Obj
  lister : Option (String → String → Except String Obj)
  getter : Option (String → Except String Obj)
  creater : Option (Obj → Except String ResultSource)
  updater : Option (Obj → Except String ResultSource)
  deleter : Option (String → Except String ResultSource)

/-- The RESTHandler fields handleRESTStorage consumes: the canonical path
prepended to self links, the codec's DecodeInto, the admission controller's
Admit (`some msg` is a rejection), the external labels.ParseSelector and
parseTimeout helpers. -/
structure RESTHandler where
  canonicalPfx : String
  decodeInto : String → Obj → Except String Obj
  admissionControl : AttributesRecord → Option String
  parseSelector : String → Except String String
  parseTimeout : String → Nat

/-- Accumulating splitter over the path's characters; `acc` holds the
reversed characters of the segment being read. -/
def splitPathAux : List Char → List Char → List String
  | [], acc => if acc.isEmpty then [] else [String.mk acc.reverse]
  | c :: cs, acc =>
    if c = '/' then
      if acc.isEmpty then splitPathAux cs []
      else String.mk acc.reverse :: splitPathAux cs []
    else splitPathAux cs (c :: acc)

/-- Modelled from the spec: the splitPath helper is not part of the given
source; it splits the request path into its non-empty segments, so an empty
or all-slash path yields no segments. -/
def splitPath (p : String) : List String := splitPathAux p.data []

/-- path.Join on two elements (the stdlib's cleaning of duplicate slashes is
not modelled; the claims never depend on it). -/
def pathJoin2 (a b : String) : String :=
  if a = "" then b else if b = "" then a else a ++ "/" ++ b

/-- path.Join on three elements. -/
def pathJoin3 (a b c : String) : String := pathJoin2 (pathJoin2 a b) c

/-- url.URL.String for the path-relative URLs the rewriter builds. -/
def urlString (u : URL) : String :=
  u.path ++ (if u.rawQuery = "" then "" else "?" ++ u.rawQuery)
    ++ (if u.fragment = "" then "" else "#" ++ u.fragment)

/-- query.Set("namespace", ns) followed by Encode on an empty query. -/
def nsQueryEncode (nsp : String) : String := "namespace=" ++ nsp

/-- Modelled from the spec: the identity accessor h.selfLinker.Namespace. -/
def linkerNamespace (o : Obj) : Except String String :=
  if o.nsErr then Except.error "namespace accessor error" else Except.ok o.ns

/-- Modelled from the spec: the identity accessor h.selfLinker.Name. -/
def linkerName (o : Obj) : Except String String :=
  if o.nameErr then Except.error "name accessor error" else Except.ok o.name

/-- Modelled from the spec: h.selfLinker.SetSelfLink stores the computed URL
on the object (or fails). -/
def linkerSetSelfLink (o : Obj) (link : String) : Except String Obj :=
  if o.setLinkErr then Except.error "setSelfLink error"
  else Except.ok { o with selfLink := link }

/-- Modelled from the spec: the readBody helper returns the request body
bytes or a read error. -/
def readBody (req : Req) : Except String String :=
  if req.bodyErr then Except.error "body read error" else Except.ok req.body

/-- Modelled from the spec: the status code errorJSON derives from the error
value (405 for the structured method-not-supported error, 500 otherwise);
the claims constrain only the serialized error body on these paths. -/
def errStatus : ApiErr → Nat
  | ApiErr.methodNotSupported _ _ => 405
  | ApiErr.other _ => 500

/-- errorJSON(err, codec, w): serialize the error and return the status. -/
def errorJSON (e : ApiErr) : Response :=
  { status := errStatus e, body := Body.err e }

/-- notFound(w, req): a 404 response. -/
def notFoundResp : Response := { status := 404, body := Body.notFoundMsg }

/-- h.setSelfLinkAddName: look up the object's name, then its namespace,
join the canonical path with the request path and the name, attach the
namespace as a query parameter when it is non-empty and the first request
path segment is not "ns", and store the URL.  The `parts[0]` read on an
empty segment list is the modelled panic (`none`). -/
def setSelfLinkAddName (pfx : String) (o : Obj) (req : Req) :
    Option (Obj × Option String) :=
  match linkerName o with
  | Except.error e => some (o, some e)
  | Except.ok name =>
    match linkerNamespace o with
    | Except.error e => some (o, some e)
    | Except.ok nsp =>
      let base : URL :=
        { path := pathJoin3 pfx req.url.path name, rawQuery := "", fragment := "" }
      let url? : Option URL :=
        if nsp.length > 0 then
          match splitPath req.url.path with
          | [] => none
          | p0 :: _ =>
            some (if p0 ≠ "ns" then { base with rawQuery := nsQueryEncode nsp } else base)
        else some base
      match url? with
      | none => none
      | some u =>
        match linkerSetSelfLink o (urlString u) with
        | Except.error e => some (o, some e)
        | Except.ok o' => some (o', none)

/-- The member loop of h.setSelfLink: apply setSelfLinkAddName to each item
in order, stopping at the first error. -/
def setItemsLinks (pfx : String) (items : List Obj) (req : Req) :
    Option (List Obj × Option String) :=
  match items with
  | [] => some ([], none)
  | o :: rest =>
    match setSelfLinkAddName pfx o req with
    | none => none
    | some (o', some e) => some (o' :: rest, some e)
    | some (o', none) =>
      match setItemsLinks pfx rest req with
      | none => none
      | some (rest', e?) => some (o' :: rest', e?)

/-- h.setSelfLink: look up the namespace, build the canonical URL (with the
namespace query parameter when non-empty and the first request path segment
is not "ns"), store it, and when the object is a list type rewrite every
member with setSelfLinkAddName and write the member sequence back. -/
def setSelfLink (pfx : String) (o : Obj) (req : Req) :
    Option (Obj × Option String) :=
  let base : URL :=
    { path := pathJoin2 pfx req.url.path, rawQuery := "", fragment := "" }
  match linkerNamespace o with
  | Except.error e => some (o, some e)
  | Except.ok nsp =>
    let url? : Option URL :=
      if nsp.length > 0 then
        match splitPath req.url.path with
        | [] => none
        | p0 :: _ =>
          some (if p0 ≠ "ns" then { base with rawQuery := nsQueryEncode nsp } else base)
      else some base
    match url? with
    | none => none
    | some u =>
      match linkerSetSelfLink o (urlString u) with
      | Except.error e => some (o, some e)
      | Except.ok o1 =>
        if o1.isList = false then some (o1, none)
        else
          match setItemsLinks pfx o1.items req with
          | none => none
          | some (_, some e) => some (o1, some e)
          | some (items', none) => some ({ o1 with items := items' }, none)

/-- curry: adapt a self-link setter into an operation completion hook; a
rewrite error is only logged, the (possibly link-less) result object is kept. -/
def curry (f : Obj → Req → Option (Obj × Option String)) (req : Req) :
    RESTResult → Option RESTResult :=
  fun r =>
    match f r.object req with
    | none => none
    | some (o, _) => some { r with object := o }

/-- h.createOperation: register the result source with the registry together
with the optional onReceive hook and wait up to the timeout.  When the result
arrives within the bound the hook has been applied to it; otherwise the
handle is still pending. -/
def createOperation (src : ResultSource) (timeout : Nat)
    (onReceive : Option (RESTResult → Option RESTResult)) : Option Operation :=
  if src.completesWithin timeout then
    match onReceive with
    | none => some { result := src.result, complete := true, placeholder := src.placeholder }
    | some f =>
      match f src.result with
      | none => none
      | some r => some { result := r, complete := true, placeholder := src.placeholder }
  else
    some { result := src.result, complete := false, placeholder := src.placeholder }

/-- op.StatusOrResult: the final result when complete, else the pending
placeholder status wrapped as a result. -/
def statusOrResult (op : Operation) : RESTResult × Bool :=
  if op.complete then (op.result, true)
  else ({ object := op.placeholder, created := false }, false)

/-- h.finishReq: on completion the status is 201 when created else 200,
overridden by a non-zero code embedded in an api.Status result object; when
not complete the status is 202 with the placeholder body. -/
def finishReq (op : Operation) : Response :=
  let rc := statusOrResult op
  let o := rc.1.object
  if rc.2 then
    let base := if rc.1.created then 201 else 200
    let st := if o.isStatus && o.statusCode != 0 then o.statusCode else base
    { status := st, body := Body.obj o }
  else
    { status := 202, body := Body.obj o }

/-- h.handleRESTStorage: the verb × path-arity dispatcher, returning the
written response paired with the ordered trace of observable steps; `none`
is a propagated panic from the self-link rewriter. -/
def handleRESTStorage (h : RESTHandler) (parts : List String) (req : Req)
    (storage : RESTStorage) (nsp kind : String) : Option (Response × List Event) :=
  let timeout := h.parseTimeout req.timeoutParam
  if req.method = "GET" then
    match parts with
    | [_] =>
      match h.parseSelector req.labelsParam with
      | Except.error e => some (errorJSON (ApiErr.other e), [])
      | Except.ok label =>
        match h.parseSelector req.fieldsParam with
        | Except.error e => some (errorJSON (ApiErr.other e), [])
        | Except.ok field =>
          match storage.lister with
          | none => some (errorJSON (ApiErr.methodNotSupported kind "list"), [])
          | some listFn =>
            match listFn label field with
            | Except.error e => some (errorJSON (ApiErr.other e), [Event.backend "list"])
            | Except.ok list =>
              match setSelfLink h.canonicalPfx list req with
              | none => none
              | some (_, some e) =>
                some (errorJSON (ApiErr.other e), [Event.backend "list", Event.selfLink])
              | some (list', none) =>
                some ({ status := 200, body := Body.obj list' },
                  [Event.backend "list", Event.selfLink])
    | [_, name] =>
      match storage.getter with
      | none => some (errorJSON (ApiErr.methodNotSupported kind "get"), [])
      | some getFn =>
        match getFn name with
        | Except.error e => some (errorJSON (ApiErr.other e), [Event.backend "get"])
        | Except.ok item =>
          match setSelfLink h.canonicalPfx item req with
          | none => none
          | some (_, some e) =>
            some (errorJSON (ApiErr.other e), [Event.backend "get", Event.selfLink])
          | some (item', none) =>
            some ({ status := 200, body := Body.obj item' },
              [Event.backend "get", Event.selfLink])
    | _ => some (notFoundResp, [])
  else if req.method = "POST" then
    match parts with
    | [p0] =>
      match storage.creater with
      | none => some (errorJSON (ApiErr.methodNotSupported kind "create"), [])
      | some createFn =>
        match readBody req with
        | Except.error e => some (errorJSON (ApiErr.other e), [])
        | Except.ok body =>
          match h.decodeInto body storage.newObj with
          | Except.error e => some (errorJSON (ApiErr.other e), [])
          | Except.ok obj =>
            let att : AttributesRecord :=
              { object := some obj, nsp := nsp, resource := p0, operation := "CREATE" }
            match h.admissionControl att with
            | some e => some (errorJSON (ApiErr.other e), [Event.decode, Event.admission att])
            | none =>
              match createFn obj with
              | Except.error e =>
                some (errorJSON (ApiErr.other e),
                  [Event.decode, Event.admission att, Event.backend "create"])
              | Except.ok src =>
                match createOperation src timeout
                    (some (curry (setSelfLinkAddName h.canonicalPfx) req)) with
                | none => none
                | some op =>
                  some (finishReq op,
                    [Event.decode, Event.admission att, Event.backend "create"] ++
                      (if src.completesWithin timeout then [Event.selfLink] else []))
    | _ => some (notFoundResp, [])
  else if req.method = "DELETE" then
    match parts with
    | [p0, name] =>
      match storage.deleter with
      | none => some (errorJSON (ApiErr.methodNotSupported kind "delete"), [])
      | some deleteFn =>
        let att : AttributesRecord :=
          { object := none, nsp := nsp, resource := p0, operation := "DELETE" }
        match h.admissionControl att with
        | some e => some (errorJSON (ApiErr.other e), [Event.admission att])
        | none =>
          match deleteFn name with
          | Except.error e =>
            some (errorJSON (ApiErr.other e), [Event.admission att, Event.backend "delete"])
          | Except.ok src =>
            match createOperation src timeout none with
            | none => none
            | some op => some (finishReq op, [Event.admission att, Event.backend "delete"])
    | _ => some (notFoundResp, [])
  else if req.method = "PUT" then
    match parts with
    | [p0, _] =>
      match storage.updater with
      | none => some (errorJSON (ApiErr.methodNotSupported kind "create"), [])
      | some updateFn =>
        match readBody req with
        | Except.error e => some (errorJSON (ApiErr.other e), [])
        | Except.ok body =>
          match h.decodeInto body storage.newObj with
          | Except.error e => some (errorJSON (ApiErr.other e), [])
          | Except.ok obj =>
            let att : AttributesRecord :=
              { object := some obj, nsp := nsp, resource := p0, operation := "UPDATE" }
            match h.admissionControl att with
            | some e => some (errorJSON (ApiErr.other e), [Event.decode, Event.admission att])
            | none =>
              match updateFn obj with
              | Except.error e =>
                some (errorJSON (ApiErr.other e),
                  [Event.decode, Event.admission att, Event.backend "update"])
              | Except.ok src =>
                match createOperation src timeout
                    (some (curry (setSelfLink h.canonicalPfx) req)) with
                | none => none
                | some op =>
                  some (finishReq op,
                    [Event.decode, Event.admission att, Event.backend "update"] ++
                      (if src.completesWithin timeout then [Event.selfLink] else []))
    | _ => some (notFoundResp, [])
  else
    some (notFoundResp, [])

/-- Does an event record an admission-control call. -/
def isAdmission : Event → Bool
  | Event.admission _ => true
  | _ => false

/-- Does an event record a backend capability call. -/
def isBackend : Event → Bool
  | Event.backend _ => true
  | _ => false

/-- The number of admission-control calls in a trace. -/
def admissionCount (evs : List Event) : Nat := (evs.filter isAdmission).length

/-- A sample handler for concrete runs: decoding writes the body into the
object's name, admission accepts everything, and exactly the selector string
"bad" fails to parse. -/
def sampleHandler : RESTHandler :=
  { canonicalPfx := "pre"
    decodeInto := fun b o => Except.ok { o with name := b }
    admissionControl := fun _ => none
    parseSelector := fun s =>
      if s = "bad" then Except.error "selector parse error" else Except.ok s
    parseTimeout := fun _ => 0 }

/-- A sample request with the given method and URL path. -/
def sampleReq (m p : String) : Req :=
  { method := m, url := { path := p, rawQuery := "", fragment := "" },
    timeoutParam := "", labelsParam := "", fieldsParam := "", body := "b" }

/-- A plain object without namespace. -/
def oPlain : Obj := { ns := "", name := "bar", selfLink := "", items := [] }

/-- A namespaced object. -/
def oNs : Obj := { ns := "ns1", name := "bar", selfLink := "", items := [] }

/-- A backend advertising no capability at all. -/
def storNone : RESTStorage :=
  { newObj := oPlain, lister := none, getter := none, creater := none,
    updater := none, deleter := none }

/-- C1: the claim fails on the update arm of the routing table.  A PUT with
two path segments against a backend that lacks the Updater capability is
answered with a method-not-supported error naming the action "create", not
the attempted action "update" (the handler's own routing-table comment
documents PUT as update), while no backend call appears in the trace. -/
theorem put_without_updater_reports_create :
    handleRESTStorage sampleHandler ["foo", "bar"] (sampleReq "PUT" "foo/bar")
        storNone "n" "k" =
      some (errorJSON (ApiErr.methodNotSupported "k" "create"), []) := by rfl

/-- C3: finishReq maps a completed operation to 201 when the created flag is
set and to 200 otherwise; a non-zero code embedded in an api.Status result
object overrides that computed status regardless of the created flag; and an
operation not complete after the wait yields 202 with the handle's
placeholder body. -/
theorem finishReq_status_mapping (op : Operation) :
    (op.complete = true →
      (op.result.object.isStatus && op.result.object.statusCode != 0) = false →
      finishReq op = { status := if op.result.created then 201 else 200,
                       body := Body.obj op.result.object }) ∧
    (op.complete = true → op.result.object.isStatus = true →
      op.result.object.statusCode ≠ 0 →
      finishReq op = { status := op.result.object.statusCode,
                       body := Body.obj op.result.object }) ∧
    (op.complete = false →
      finishReq op = { status := 202, body := Body.obj op.placeholder }) := by
  refine ⟨?_, ?_, ?_⟩
  · intro hc hns
    simp [finishReq, statusOrResult, hc, hns]
  · intro hc hst hcode
    simp [finishReq, statusOrResult, hc, hst, hcode]
  · intro hc
    simp [finishReq, statusOrResult, hc]

/-- An operation that completed with a created result. -/
def opCreatedS : Operation :=
  { result := { object := oPlain, created := true }, complete := true, placeholder := oPlain }

/-- An api.Status object with embedded code 409. -/
def oStat409 : Obj :=
  { ns := "", name := "", selfLink := "", items := [], isStatus := true, statusCode := 409 }

/-- A completed operation whose result carries an embedded 409 status. -/
def opConflict : Operation :=
  { result := { object := oStat409, created := true }, complete := true, placeholder := oPlain }

/-- An operation still pending after the wait. -/
def opPending : Operation :=
  { result := { object := oPlain, created := false }, complete := false, placeholder := oNs }

/-- Witness for C3 at three concrete operations. -/
theorem finishReq_status_mapping_witness :
    finishReq opCreatedS = { status := 201, body := Body.obj oPlain } ∧
    finishReq opConflict = { status := 409, body := Body.obj oStat409 } ∧
    finishReq opPending = { status := 202, body := Body.obj oNs } := by
  refine ⟨?_, ?_, ?_⟩
  · simpa [opCreatedS, oPlain] using (finishReq_status_mapping opCreatedS).1 rfl rfl
  · simpa [opConflict] using
      (finishReq_status_mapping opConflict).2.1 rfl rfl (by decide)
  · simpa [opPending] using (finishReq_status_mapping opPending).2.2 rfl

/-- A non-empty string has positive length. -/
theorem str_length_pos (s : String) (h : s ≠ "") : 0 < s.length := by
  cases s with
  | mk data =>
    cases data with
    | nil => exact absurd rfl h
    | cons c cs => simp [String.length]

/-- setSelfLinkAddName never panics when the split request path is non-empty. -/
theorem setSelfLinkAddName_defined (pfx : String) (o : Obj) (req : Req)
    (hsp : splitPath req.url.path ≠ []) : setSelfLinkAddName pfx o req ≠ none := by
  cases hps : splitPath req.url.path with
  | nil => exact absurd hps hsp
  | cons p0 rest =>
    by_cases hlen : 0 < o.ns.length <;> by_cases hp0 : p0 = "ns" <;>
      cases hne : o.nameErr <;> cases hnse : o.nsErr <;> cases hse : o.setLinkErr <;>
        simp [setSelfLinkAddName, linkerName, linkerNamespace, linkerSetSelfLink,
          hne, hnse, hse, hps, hlen, hp0]

/-- The member loop never panics when the split request path is non-empty. -/
theorem setItemsLinks_defined (pfx : String) (items : List Obj) (req : Req)
    (hsp : splitPath req.url.path ≠ []) : setItemsLinks pfx items req ≠ none := by
  induction items with
  | nil => simp [setItemsLinks]
  | cons o rest ih =>
    have h1 := setSelfLinkAddName_defined pfx o req hsp
    unfold setItemsLinks
    cases h2 : setSelfLinkAddName pfx o req with
    | none => exact absurd h2 h1
    | some pr =>
      obtain ⟨o', e?⟩ := pr
      cases e? with
      | none =>
        cases h3 : setItemsLinks pfx rest req with
        | none => exact absurd h3 ih
        | some pr2 => simp [h3]
      | some e => simp

/-- setSelfLink never panics when the split request path is non-empty. -/
theorem setSelfLink_defined (pfx : String) (o : Obj) (req : Req)
    (hsp : splitPath req.url.path ≠ []) : setSelfLink pfx o req ≠ none := by
  cases hps : splitPath req.url.path with
  | nil => exact absurd hps hsp
  | cons p0 rest =>
    have hitems := setItemsLinks_defined pfx o.items req hsp
    rcases hits : setItemsLinks pfx o.items req with _ | ⟨items', e?⟩
    · exact absurd hits hitems
    · rcases e? with _ | e <;>
        cases hnse : o.nsErr <;> cases hse : o.setLinkErr <;> cases hil : o.isList <;>
          by_cases hlen : 0 < o.ns.length <;> by_cases hp0 : p0 = "ns" <;>
            simp [setSelfLink, linkerNamespace, linkerSetSelfLink,
              hnse, hse, hil, hps, hlen, hp0, hits]

/-- C10: when the namespace accessor yields a non-empty namespace, both
rewrite functions read the first element of the split request path, guarded
only by the namespace check: they are undefined (a modelled index panic)
exactly when the split yields no segment, and defined whenever it yields at
least one. -/
theorem selfLink_first_segment_precondition (pfx : String) (o : Obj) (req : Req)
    (hns : o.nsErr = false) (hne : o.ns ≠ "") :
    (splitPath req.url.path = [] →
      setSelfLink pfx o req = none ∧
      (o.nameErr = false → setSelfLinkAddName pfx o req = none)) ∧
    (splitPath req.url.path ≠ [] →
      setSelfLink pfx o req ≠ none ∧ setSelfLinkAddName pfx o req ≠ none) := by
  have hlen : 0 < o.ns.length := str_length_pos o.ns hne
  constructor
  · intro hsp
    constructor
    · simp [setSelfLink, linkerNamespace, hns, hsp, hlen]
    · intro hnm
      simp [setSelfLinkAddName, linkerName, linkerNamespace, hnm, hns, hsp, hlen]
  · intro hsp
    exact ⟨setSelfLink_defined pfx o req hsp, setSelfLinkAddName_defined pfx o req hsp⟩

/-- Witness for C10: a namespaced object with an empty request path panics,
and the same object with a two-segment path is rewritten fine. -/
theorem selfLink_first_segment_precondition_witness :
    setSelfLink "pre" oNs (sampleReq "GET" "") = none ∧
    setSelfLink "pre" oNs (sampleReq "GET" "foo/bar") ≠ none := by
  constructor
  · exact ((selfLink_first_segment_precondition "pre" oNs (sampleReq "GET" "")
      rfl (by decide)).1 (by decide)).1
  · exact ((selfLink_first_segment_precondition "pre" oNs (sampleReq "GET" "foo/bar")
      rfl (by decide)).2 (by decide)).1

/-- C9: on the list route both selector expressions are parsed — labels
first, then fields — before the Lister capability check, so a malformed
label selector, and equally a well-formed label selector followed by a
malformed field selector, against a backend without the Lister capability
yields that selector's parse error, which is never the structured
method-not-supported error. -/
theorem selector_parse_before_capability :
    (∀ (h : RESTHandler) (p0 : String) (req : Req) (storage : RESTStorage)
        (nsp kind e : String),
      req.method = "GET" →
      h.parseSelector req.labelsParam = Except.error e →
      storage.lister = none →
      handleRESTStorage h [p0] req storage nsp kind =
        some (errorJSON (ApiErr.other e), [])) ∧
    (∀ (h : RESTHandler) (p0 : String) (req : Req) (storage : RESTStorage)
        (nsp kind lsel e : String),
      req.method = "GET" →
      h.parseSelector req.labelsParam = Except.ok lsel →
      h.parseSelector req.fieldsParam = Except.error e →
      storage.lister = none →
      handleRESTStorage h [p0] req storage nsp kind =
        some (errorJSON (ApiErr.other e), [])) ∧
    (∀ e k a, ApiErr.other e ≠ ApiErr.methodNotSupported k a) := by
  refine ⟨?_, ?_, ?_⟩
  · intro h p0 req storage nsp kind e hm hl hnol
    simp [handleRESTStorage, hm, hl]
  · intro h p0 req storage nsp kind lsel e hm hl hf hnol
    simp [handleRESTStorage, hm, hl, hf]
  · intro e k a hc
    exact ApiErr.noConfusion hc

/-- Witness for C9: the sample handler rejects the label selector "bad",
and likewise a good label selector with the field selector "bad", even
though the backend has no Lister capability. -/
theorem selector_parse_before_capability_witness :
    (handleRESTStorage sampleHandler ["foo"]
        { sampleReq "GET" "foo" with labelsParam := "bad" } storNone "n" "k" =
      some (errorJSON (ApiErr.other "selector parse error"), [])) ∧
    (handleRESTStorage sampleHandler ["foo"]
        { sampleReq "GET" "foo" with fieldsParam := "bad" } storNone "n" "k" =
      some (errorJSON (ApiErr.other "selector parse error"), [])) := by
  constructor
  · exact selector_parse_before_capability.1 sampleHandler "foo"
      { sampleReq "GET" "foo" with labelsParam := "bad" } storNone "n" "k"
      "selector parse error" rfl rfl rfl
  · exact selector_parse_before_capability.2.1 sampleHandler "foo"
      { sampleReq "GET" "foo" with fieldsParam := "bad" } storNone "n" "k"
      "" "selector parse error" rfl rfl rfl rfl

/-- C5: with a non-empty namespace, both rewrite functions attach the
namespace as a query parameter on the computed URL exactly when the first
segment of the split request path is not the literal "ns". -/
theorem namespace_query_rule (pfx : String) (o : Obj) (req : Req)
    (p0 : String) (rest : List String)
    (hns : o.nsErr = false) (hse : o.setLinkErr = false) (hne : o.ns ≠ "")
    (hps : splitPath req.url.path = p0 :: rest) :
    (o.isList = false →
      setSelfLink pfx o req =
        some ({ o with selfLink := urlString ⟨pathJoin2 pfx req.url.path,
            (if p0 = "ns" then "" else nsQueryEncode o.ns), ""⟩ }, none)) ∧
    (o.nameErr = false →
      setSelfLinkAddName pfx o req =
        some ({ o with selfLink := urlString ⟨pathJoin3 pfx req.url.path o.name,
            (if p0 = "ns" then "" else nsQueryEncode o.ns), ""⟩ }, none)) := by
  have hlen : 0 < o.ns.length := str_length_pos o.ns hne
  constructor
  · intro hil
    by_cases hp0 : p0 = "ns" <;>
      simp [setSelfLink, linkerNamespace, linkerSetSelfLink,
        hns, hse, hil, hps, hlen, hp0]
  · intro hnm
    by_cases hp0 : p0 = "ns" <;>
      simp [setSelfLinkAddName, linkerName, linkerNamespace, linkerSetSelfLink,
        hnm, hns, hse, hps, hlen, hp0]

/-- Witness for C5: path "foo/bar" (first segment not "ns") gets the
namespace query parameter; path "ns/ns1/foo" does not. -/
theorem namespace_query_rule_witness :
    setSelfLink "pre" oNs (sampleReq "GET" "foo/bar") =
      some ({ oNs with selfLink := "pre/foo/bar?namespace=ns1" }, none) ∧
    setSelfLink "pre" oNs (sampleReq "GET" "ns/ns1/foo") =
      some ({ oNs with selfLink := "pre/ns/ns1/foo" }, none) := by
  constructor
  · have h := (namespace_query_rule "pre" oNs (sampleReq "GET" "foo/bar")
      "foo" ["bar"] rfl rfl (by decide) (by decide)).1 rfl
    simpa [urlString, nsQueryEncode, pathJoin2, oNs, sampleReq] using h
  · have h := (namespace_query_rule "pre" oNs (sampleReq "GET" "ns/ns1/foo")
      "ns" ["ns1", "foo"] rfl rfl (by decide) (by decide)).1 rfl
    simpa [urlString, nsQueryEncode, pathJoin2, oNs, sampleReq] using h

/-- The member loop of setSelfLink, on success, rewrites the member list
pointwise: the output has the same length and each output member is exactly
the single-application result of setSelfLinkAddName on the input member at
the same index. -/
theorem setItemsLinks_ok_spec (pfx : String) (req : Req) :
    ∀ (items items' : List Obj), setItemsLinks pfx items req = some (items', none) →
      items'.length = items.length ∧
      ∀ i, (hi : i < items.length) → (hi' : i < items'.length) →
        setSelfLinkAddName pfx (items.get ⟨i, hi⟩) req =
          some (items'.get ⟨i, hi'⟩, none) := by
  intro items
  induction items with
  | nil =>
    intro items' h
    simp [setItemsLinks] at h
    subst h
    exact ⟨rfl, fun i hi hi' => absurd hi (Nat.not_lt_zero i)⟩
  | cons o rest ih =>
    intro items' h
    rw [setItemsLinks] at h
    cases h2 : setSelfLinkAddName pfx o req with
    | none => rw [h2] at h; cases h
    | some pr =>
      obtain ⟨o', e?⟩ := pr
      rw [h2] at h
      cases e? with
      | some e => simp at h
      | none =>
        cases h3 : setItemsLinks pfx rest req with
        | none => rw [h3] at h; cases h
        | some pr2 =>
          obtain ⟨rest', e2?⟩ := pr2
          rw [h3] at h
          cases e2? with
          | some e => simp at h
          | none =>
            simp only [Option.some.injEq, Prod.mk.injEq] at h
            obtain ⟨hitems, -⟩ := h
            subst hitems
            obtain ⟨hlen, hidx⟩ := ih rest' h3
            refine ⟨by simp [hlen], ?_⟩
            intro i hi hi'
            cases i with
            | zero => simpa using h2
            | succ j =>
              simpa using hidx j (by simpa using hi) (by simpa using hi')

/-- C6: when setSelfLink succeeds on a collection, the member sequence
written back has the same member count, and the member at every index is
exactly one application of the append-name rewrite to the input member at
that index — no member skipped, none rewritten twice, order preserved. -/
theorem collection_rewrite (pfx : String) (o o' : Obj) (req : Req)
    (hl : o.isList = true)
    (hok : setSelfLink pfx o req = some (o', none)) :
    o'.items.length = o.items.length ∧
    ∀ i, (hi : i < o.items.length) → (hi' : i < o'.items.length) →
      setSelfLinkAddName pfx (o.items.get ⟨i, hi⟩) req =
        some (o'.items.get ⟨i, hi'⟩, none) := by
  cases hns : o.nsErr with
  | true => simp [setSelfLink, linkerNamespace, hns] at hok
  | false =>
    cases hsl : o.setLinkErr with
    | true =>
      by_cases hlen : 0 < o.ns.length
      · cases hsp2 : splitPath req.url.path with
        | nil => simp [setSelfLink, linkerNamespace, linkerSetSelfLink, *] at hok
        | cons p0 rest =>
          by_cases hp0 : p0 = "ns" <;>
            simp [setSelfLink, linkerNamespace, linkerSetSelfLink, *] at hok
      · simp [setSelfLink, linkerNamespace, linkerSetSelfLink, *] at hok
    | false =>
      rcases hits : setItemsLinks pfx o.items req with _ | ⟨items', _ | e⟩
      · by_cases hlen : 0 < o.ns.length
        · cases hsp2 : splitPath req.url.path with
          | nil => simp [setSelfLink, linkerNamespace, linkerSetSelfLink, *] at hok
          | cons p0 rest =>
            by_cases hp0 : p0 = "ns" <;>
              simp [setSelfLink, linkerNamespace, linkerSetSelfLink, *] at hok
        · simp [setSelfLink, linkerNamespace, linkerSetSelfLink, *] at hok
      · obtain ⟨hlen2, hidx⟩ := setItemsLinks_ok_spec pfx req o.items items' hits
        by_cases hlen : 0 < o.ns.length
        · cases hsp2 : splitPath req.url.path with
          | nil => simp [setSelfLink, linkerNamespace, linkerSetSelfLink, *] at hok
          | cons p0 rest =>
            by_cases hp0 : p0 = "ns" <;>
              (simp [setSelfLink, linkerNamespace, linkerSetSelfLink, *] at hok;
               subst hok; exact ⟨hlen2, hidx⟩)
        · simp [setSelfLink, linkerNamespace, linkerSetSelfLink, *] at hok
          subst hok
          exact ⟨hlen2, hidx⟩
      · by_cases hlen : 0 < o.ns.length
        · cases hsp2 : splitPath req.url.path with
          | nil => simp [setSelfLink, linkerNamespace, linkerSetSelfLink, *] at hok
          | cons p0 rest =>
            by_cases hp0 : p0 = "ns" <;>
              simp [setSelfLink, linkerNamespace, linkerSetSelfLink, *] at hok
        · simp [setSelfLink, linkerNamespace, linkerSetSelfLink, *] at hok

/-- First member of the sample collection. -/
def m1 : Obj := { ns := "", name := "a", selfLink := "", items := [] }

/-- Second member of the sample collection. -/
def m2 : Obj := { ns := "", name := "b", selfLink := "", items := [] }

/-- Third member of the sample collection. -/
def m3 : Obj := { ns := "", name := "c", selfLink := "", items := [] }

/-- A three-member sample collection. -/
def sampleList : Obj :=
  { ns := "", name := "", selfLink := "", isList := true, items := [m1, m2, m3] }

/-- The rewritten sample collection. -/
def sampleListOut : Obj :=
  { sampleList with
    selfLink := "pre/foo"
    items := [{ m1 with selfLink := "pre/foo/a" },
              { m2 with selfLink := "pre/foo/b" },
              { m3 with selfLink := "pre/foo/c" }] }

/-- Witness for C6: the three-member collection keeps its count, and each
member (index 1 shown) is the single-application rewrite of its input. -/
theorem collection_rewrite_witness :
    sampleListOut.items.length = sampleList.items.length ∧
    setSelfLinkAddName "pre" (sampleList.items.get ⟨1, by decide⟩) (sampleReq "GET" "foo") =
      some (sampleListOut.items.get ⟨1, by decide⟩, none) := by
  have h := collection_rewrite "pre" sampleList sampleListOut (sampleReq "GET" "foo") rfl rfl
  exact ⟨h.1, h.2 1 (by decide) (by decide)⟩

/-- C2: a self-link rewrite failure is fatal on the synchronous List/Get
path — the whole request is answered with the error — while the same
failure inside the completion callback of Create/Update is swallowed after
being logged: the backend's result object, lacking only the self-link, is
still returned with the ordinary completion status. -/
theorem selfLink_error_policy :
    (∀ (h : RESTHandler) (p0 name : String) (req : Req) (storage : RESTStorage)
        (nsp kind : String) (g : String → Except String Obj) (item o' : Obj) (e : String),
      req.method = "GET" → storage.getter = some g → g name = Except.ok item →
      setSelfLink h.canonicalPfx item req = some (o', some e) →
      handleRESTStorage h [p0, name] req storage nsp kind =
        some (errorJSON (ApiErr.other e), [Event.backend "get", Event.selfLink])) ∧
    (∀ (h : RESTHandler) (p0 : String) (req : Req) (storage : RESTStorage)
        (nsp kind lsel fsel : String) (lf : String → String → Except String Obj)
        (list o' : Obj) (e : String),
      req.method = "GET" →
      h.parseSelector req.labelsParam = Except.ok lsel →
      h.parseSelector req.fieldsParam = Except.ok fsel →
      storage.lister = some lf → lf lsel fsel = Except.ok list →
      setSelfLink h.canonicalPfx list req = some (o', some e) →
      handleRESTStorage h [p0] req storage nsp kind =
        some (errorJSON (ApiErr.other e), [Event.backend "list", Event.selfLink])) ∧
    (∀ (h : RESTHandler) (p0 : String) (req : Req) (storage : RESTStorage)
        (nsp kind body : String) (c : Obj → Except String ResultSource)
        (obj o' : Obj) (src : ResultSource) (e : String),
      req.method = "POST" → storage.creater = some c →
      readBody req = Except.ok body →
      h.decodeInto body storage.newObj = Except.ok obj →
      h.admissionControl ⟨some obj, nsp, p0, "CREATE"⟩ = none →
      c obj = Except.ok src →
      src.completesWithin (h.parseTimeout req.timeoutParam) = true →
      setSelfLinkAddName h.canonicalPfx src.result.object req = some (o', some e) →
      handleRESTStorage h [p0] req storage nsp kind =
        some ({ status := if o'.isStatus && o'.statusCode != 0 then o'.statusCode
                  else if src.result.created then 201 else 200,
                body := Body.obj o' },
          [Event.decode, Event.admission ⟨some obj, nsp, p0, "CREATE"⟩,
            Event.backend "create", Event.selfLink])) ∧
    (∀ (h : RESTHandler) (p0 p1 : String) (req : Req) (storage : RESTStorage)
        (nsp kind body : String) (u : Obj → Except String ResultSource)
        (obj o' : Obj) (src : ResultSource) (e : String),
      req.method = "PUT" → storage.updater = some u →
      readBody req = Except.ok body →
      h.decodeInto body storage.newObj = Except.ok obj →
      h.admissionControl ⟨some obj, nsp, p0, "UPDATE"⟩ = none →
      u obj = Except.ok src →
      src.completesWithin (h.parseTimeout req.timeoutParam) = true →
      setSelfLink h.canonicalPfx src.result.object req = some (o', some e) →
      handleRESTStorage h [p0, p1] req storage nsp kind =
        some ({ status := if o'.isStatus && o'.statusCode != 0 then o'.statusCode
                  else if src.result.created then 201 else 200,
                body := Body.obj o' },
          [Event.decode, Event.admission ⟨some obj, nsp, p0, "UPDATE"⟩,
            Event.backend "update", Event.selfLink])) := by
  refine ⟨?_, ?_, ?_, ?_⟩
  · intro h p0 name req storage nsp kind g item o' e hm hget hg hsl
    simp [handleRESTStorage, hm, hget, hg, hsl]
  · intro h p0 req storage nsp kind lsel fsel lf list o' e hm hl1 hl2 hlister hlist hsl
    simp [handleRESTStorage, hm, hl1, hl2, hlister, hlist, hsl]
  · intro h p0 req storage nsp kind body c obj o' src e hm hcr hrb hdec hadm hc hcw hsl
    simp [handleRESTStorage, hm, hcr, hrb, hdec, hadm, hc, hcw, hsl,
      curry, createOperation, finishReq, statusOrResult]
  · intro h p0 p1 req storage nsp kind body u obj o' src e hm hup hrb hdec hadm hu hcw hsl
    simp [handleRESTStorage, hm, hup, hrb, hdec, hadm, hu, hcw, hsl,
      curry, createOperation, finishReq, statusOrResult]

/-- An object whose SetSelfLink accessor fails. -/
def oSetErr : Obj :=
  { ns := "", name := "x", selfLink := "", setLinkErr := true, items := [] }

/-- A result source (created) whose object rejects the self-link write. -/
def srcBadCreate : ResultSource :=
  { result := { object := oSetErr, created := true },
    completesWithin := fun _ => true, placeholder := oPlain }

/-- A result source (not created) whose object rejects the self-link write. -/
def srcBadUpdate : ResultSource :=
  { result := { object := oSetErr, created := false },
    completesWithin := fun _ => true, placeholder := oPlain }

/-- A backend whose results all reject the self-link write. -/
def storBad : RESTStorage :=
  { newObj := oPlain
    lister := some (fun _ _ => Except.ok oSetErr)
    getter := some (fun _ => Except.ok oSetErr)
    creater := some (fun _ => Except.ok srcBadCreate)
    updater := some (fun _ => Except.ok srcBadUpdate)
    deleter := none }

/-- Witness for C2: the same failing rewrite aborts Get and List but is
swallowed on Create and Update, which still answer 201/200 with the
link-less object. -/
theorem selfLink_error_policy_witness :
    (handleRESTStorage sampleHandler ["foo", "bar"] (sampleReq "GET" "foo/bar")
        storBad "n" "k" =
      some (errorJSON (ApiErr.other "setSelfLink error"),
        [Event.backend "get", Event.selfLink])) ∧
    (handleRESTStorage sampleHandler ["foo"] (sampleReq "GET" "foo") storBad "n" "k" =
      some (errorJSON (ApiErr.other "setSelfLink error"),
        [Event.backend "list", Event.selfLink])) ∧
    (handleRESTStorage sampleHandler ["foo"] (sampleReq "POST" "foo") storBad "n" "k" =
      some ({ status := 201, body := Body.obj oSetErr },
        [Event.decode,
          Event.admission ⟨some { oPlain with name := "b" }, "n", "foo", "CREATE"⟩,
          Event.backend "create", Event.selfLink])) ∧
    (handleRESTStorage sampleHandler ["foo", "bar"] (sampleReq "PUT" "foo/bar")
        storBad "n" "k" =
      some ({ status := 200, body := Body.obj oSetErr },
        [Event.decode,
          Event.admission ⟨some { oPlain with name := "b" }, "n", "foo", "UPDATE"⟩,
          Event.backend "update", Event.selfLink])) := by
  refine ⟨?_, ?_, ?_, ?_⟩
  · exact selfLink_error_policy.1 sampleHandler "foo" "bar" (sampleReq "GET" "foo/bar")
      storBad "n" "k" (fun _ => Except.ok oSetErr) oSetErr oSetErr "setSelfLink error"
      rfl rfl rfl rfl
  · exact selfLink_error_policy.2.1 sampleHandler "foo" (sampleReq "GET" "foo")
      storBad "n" "k" "" "" (fun _ _ => Except.ok oSetErr) oSetErr oSetErr
      "setSelfLink error" rfl rfl rfl rfl rfl rfl
  · exact selfLink_error_policy.2.2.1 sampleHandler "foo" (sampleReq "POST" "foo")
      storBad "n" "k" "b" (fun _ => Except.ok srcBadCreate) { oPlain with name := "b" }
      oSetErr srcBadCreate "setSelfLink error" rfl rfl rfl rfl rfl rfl rfl rfl
  · exact selfLink_error_policy.2.2.2 sampleHandler "foo" "bar" (sampleReq "PUT" "foo/bar")
      storBad "n" "k" "b" (fun _ => Except.ok srcBadUpdate) { oPlain with name := "b" }
      oSetErr srcBadUpdate "setSelfLink error" rfl rfl rfl rfl rfl rfl rfl rfl

/-- C7: Create, Update and Delete all route the backend's result source
through createOperation with the parsed timeout and answer through the one
finishReq completion path; the only per-action variance is the attached
completion callback — append-name rewrite for Create, plain rewrite for
Update, none for Delete. -/
theorem shared_completion_path :
    (∀ (h : RESTHandler) (p0 : String) (req : Req) (storage : RESTStorage)
        (nsp kind body : String) (c : Obj → Except String ResultSource)
        (obj : Obj) (src : ResultSource),
      req.method = "POST" → storage.creater = some c →
      readBody req = Except.ok body →
      h.decodeInto body storage.newObj = Except.ok obj →
      h.admissionControl ⟨some obj, nsp, p0, "CREATE"⟩ = none →
      c obj = Except.ok src →
      handleRESTStorage h [p0] req storage nsp kind =
        (createOperation src (h.parseTimeout req.timeoutParam)
            (some (curry (setSelfLinkAddName h.canonicalPfx) req))).map
          (fun op => (finishReq op,
            [Event.decode, Event.admission ⟨some obj, nsp, p0, "CREATE"⟩,
              Event.backend "create"] ++
              (if src.completesWithin (h.parseTimeout req.timeoutParam)
                then [Event.selfLink] else [])))) ∧
    (∀ (h : RESTHandler) (p0 p1 : String) (req : Req) (storage : RESTStorage)
        (nsp kind body : String) (u : Obj → Except String ResultSource)
        (obj : Obj) (src : ResultSource),
      req.method = "PUT" → storage.updater = some u →
      readBody req = Except.ok body →
      h.decodeInto body storage.newObj = Except.ok obj →
      h.admissionControl ⟨some obj, nsp, p0, "UPDATE"⟩ = none →
      u obj = Except.ok src →
      handleRESTStorage h [p0, p1] req storage nsp kind =
        (createOperation src (h.parseTimeout req.timeoutParam)
            (some (curry (setSelfLink h.canonicalPfx) req))).map
          (fun op => (finishReq op,
            [Event.decode, Event.admission ⟨some obj, nsp, p0, "UPDATE"⟩,
              Event.backend "update"] ++
              (if src.completesWithin (h.parseTimeout req.timeoutParam)
                then [Event.selfLink] else [])))) ∧
    (∀ (h : RESTHandler) (p0 name : String) (req : Req) (storage : RESTStorage)
        (nsp kind : String) (d : String → Except String ResultSource) (src : ResultSource),
      req.method = "DELETE" → storage.deleter = some d →
      h.admissionControl ⟨none, nsp, p0, "DELETE"⟩ = none →
      d name = Except.ok src →
      handleRESTStorage h [p0, name] req storage nsp kind =
        (createOperation src (h.parseTimeout req.timeoutParam) none).map
          (fun op => (finishReq op,
            [Event.admission ⟨none, nsp, p0, "DELETE"⟩, Event.backend "delete"]))) := by
  refine ⟨?_, ?_, ?_⟩
  · intro h p0 req storage nsp kind body c obj src hm hcr hrb hdec hadm hc
    cases hco : createOperation src (h.parseTimeout req.timeoutParam)
        (some (curry (setSelfLinkAddName h.canonicalPfx) req)) <;>
      simp [handleRESTStorage, hm, hcr, hrb, hdec, hadm, hc, hco]
  · intro h p0 p1 req storage nsp kind body u obj src hm hup hrb hdec hadm hu
    cases hco : createOperation src (h.parseTimeout req.timeoutParam)
        (some (curry (setSelfLink h.canonicalPfx) req)) <;>
      simp [handleRESTStorage, hm, hup, hrb, hdec, hadm, hu, hco]
  · intro h p0 name req storage nsp kind d src hm hdel hadm hd
    cases hco : createOperation src (h.parseTimeout req.timeoutParam) none <;>
      simp [handleRESTStorage, hm, hdel, hadm, hd, hco]

/-- A result source that completes at once with a created result. -/
def srcGood : ResultSource :=
  { result := { object := oPlain, created := true },
    completesWithin := fun _ => true, placeholder := oPlain }

/-- A result source that completes at once with a non-created result. -/
def srcDel : ResultSource :=
  { result := { object := oPlain, created := false },
    completesWithin := fun _ => true, placeholder := oPlain }

/-- A backend supporting the three mutating capabilities. -/
def storGood : RESTStorage :=
  { newObj := oPlain
    lister := none
    getter := none
    creater := some (fun _ => Except.ok srcGood)
    updater := some (fun _ => Except.ok srcGood)
    deleter := some (fun _ => Except.ok srcDel) }

/-- Witness for C7: concrete Create, Update and Delete runs through the
shared completion path, with the per-action callback visible in the result. -/
theorem shared_completion_path_witness :
    (handleRESTStorage sampleHandler ["foo"] (sampleReq "POST" "foo") storGood "n" "k" =
      some ({ status := 201, body := Body.obj { oPlain with selfLink := "pre/foo/bar" } },
        [Event.decode,
          Event.admission ⟨some { oPlain with name := "b" }, "n", "foo", "CREATE"⟩,
          Event.backend "create", Event.selfLink])) ∧
    (handleRESTStorage sampleHandler ["foo", "bar"] (sampleReq "PUT" "foo/bar")
        storGood "n" "k" =
      some ({ status := 201, body := Body.obj { oPlain with selfLink := "pre/foo/bar" } },
        [Event.decode,
          Event.admission ⟨some { oPlain with name := "b" }, "n", "foo", "UPDATE"⟩,
          Event.backend "update", Event.selfLink])) ∧
    (handleRESTStorage sampleHandler ["foo", "bar"] (sampleReq "DELETE" "foo/bar")
        storGood "n" "k" =
      some ({ status := 200, body := Body.obj oPlain },
        [Event.admission ⟨none, "n", "foo", "DELETE"⟩, Event.backend "delete"])) := by
  refine ⟨?_, ?_, ?_⟩
  · exact shared_completion_path.1 sampleHandler "foo" (sampleReq "POST" "foo")
      storGood "n" "k" "b" (fun _ => Except.ok srcGood) { oPlain with name := "b" }
      srcGood rfl rfl rfl rfl rfl rfl
  · exact shared_completion_path.2.1 sampleHandler "foo" "bar" (sampleReq "PUT" "foo/bar")
      storGood "n" "k" "b" (fun _ => Except.ok srcGood) { oPlain with name := "b" }
      srcGood rfl rfl rfl rfl rfl rfl
  · exact shared_completion_path.2.2 sampleHandler "foo" "bar" (sampleReq "DELETE" "foo/bar")
      storGood "n" "k" (fun _ => Except.ok srcDel) srcDel rfl rfl rfl rfl

/-- C4: the admission gate runs for every mutating action and never for a
read.  On GET no trace contains an admission call.  On Create/Update, once
the body decoded, a rejecting gate aborts with the trace ending at the gate
(the backend is never called), and an accepting gate yields a trace that
starts decode–admission–backend with exactly one admission call; Delete is
the same without the decode step. -/
theorem admission_gate_placement :
    (∀ (h : RESTHandler) (parts : List String) (req : Req) (storage : RESTStorage)
        (nsp kind : String) (resp : Response) (evs : List Event),
      req.method = "GET" →
      handleRESTStorage h parts req storage nsp kind = some (resp, evs) →
      admissionCount evs = 0) ∧
    (∀ (h : RESTHandler) (p0 : String) (req : Req) (storage : RESTStorage)
        (nsp kind body : String) (c : Obj → Except String ResultSource) (obj : Obj),
      req.method = "POST" → storage.creater = some c →
      readBody req = Except.ok body →
      h.decodeInto body storage.newObj = Except.ok obj →
      (∀ e, h.admissionControl ⟨some obj, nsp, p0, "CREATE"⟩ = some e →
        handleRESTStorage h [p0] req storage nsp kind =
          some (errorJSON (ApiErr.other e),
            [Event.decode, Event.admission ⟨some obj, nsp, p0, "CREATE"⟩])) ∧
      (h.admissionControl ⟨some obj, nsp, p0, "CREATE"⟩ = none →
        ∀ resp evs, handleRESTStorage h [p0] req storage nsp kind = some (resp, evs) →
          evs.take 3 = [Event.decode, Event.admission ⟨some obj, nsp, p0, "CREATE"⟩,
            Event.backend "create"] ∧
          admissionCount evs = 1)) ∧
    (∀ (h : RESTHandler) (p0 p1 : String) (req : Req) (storage : RESTStorage)
        (nsp kind body : String) (u : Obj → Except String ResultSource) (obj : Obj),
      req.method = "PUT" → storage.updater = some u →
      readBody req = Except.ok body →
      h.decodeInto body storage.newObj = Except.ok obj →
      (∀ e, h.admissionControl ⟨some obj, nsp, p0, "UPDATE"⟩ = some e →
        handleRESTStorage h [p0, p1] req storage nsp kind =
          some (errorJSON (ApiErr.other e),
            [Event.decode, Event.admission ⟨some obj, nsp, p0, "UPDATE"⟩])) ∧
      (h.admissionControl ⟨some obj, nsp, p0, "UPDATE"⟩ = none →
        ∀ resp evs, handleRESTStorage h [p0, p1] req storage nsp kind = some (resp, evs) →
          evs.take 3 = [Event.decode, Event.admission ⟨some obj, nsp, p0, "UPDATE"⟩,
            Event.backend "update"] ∧
          admissionCount evs = 1)) ∧
    (∀ (h : RESTHandler) (p0 name : String) (req : Req) (storage : RESTStorage)
        (nsp kind : String) (d : String → Except String ResultSource),
      req.method = "DELETE" → storage.deleter = some d →
      (∀ e, h.admissionControl ⟨none, nsp, p0, "DELETE"⟩ = some e →
        handleRESTStorage h [p0, name] req storage nsp kind =
          some (errorJSON (ApiErr.other e),
            [Event.admission ⟨none, nsp, p0, "DELETE"⟩])) ∧
      (h.admissionControl ⟨none, nsp, p0, "DELETE"⟩ = none →
        ∀ resp evs, handleRESTStorage h [p0, name] req storage nsp kind = some (resp, evs) →
          evs.take 2 = [Event.admission ⟨none, nsp, p0, "DELETE"⟩,
            Event.backend "delete"] ∧
          admissionCount evs = 1)) := by
  refine ⟨?_, ?_, ?_, ?_⟩
  · intro h parts req storage nsp kind resp evs hm hh
    simp only [handleRESTStorage, hm, if_true, eq_self_iff_true] at hh
    repeat' split at hh
    all_goals try simp only [Option.some.injEq, Prod.mk.injEq] at hh
    all_goals
      first
        | (obtain ⟨h1, h2⟩ := hh; subst h2; decide)
        | exact absurd hh (by simp)
  · intro h p0 req storage nsp kind body c obj hm hcr hrb hdec
    constructor
    · intro e hadm
      simp [handleRESTStorage, hm, hcr, hrb, hdec, hadm]
    · intro hadm resp evs hh
      simp only [handleRESTStorage, hm, hcr, hrb, hdec, hadm] at hh
      repeat' split at hh
      all_goals try simp only [Option.some.injEq, Prod.mk.injEq] at hh
      all_goals
        first
          | (obtain ⟨h1, h2⟩ := hh; subst h2; exact ⟨rfl, rfl⟩)
          | (exfalso; simp_all)
  · intro h p0 p1 req storage nsp kind body u obj hm hup hrb hdec
    constructor
    · intro e hadm
      simp [handleRESTStorage, hm, hup, hrb, hdec, hadm]
    · intro hadm resp evs hh
      simp only [handleRESTStorage, hm, hup, hrb, hdec, hadm] at hh
      repeat' split at hh
      all_goals try simp only [Option.some.injEq, Prod.mk.injEq] at hh
      all_goals
        first
          | (obtain ⟨h1, h2⟩ := hh; subst h2; exact ⟨rfl, rfl⟩)
          | (exfalso; simp_all)
  · intro h p0 name req storage nsp kind d hm hdel
    constructor
    · intro e hadm
      simp [handleRESTStorage, hm, hdel, hadm]
    · intro hadm resp evs hh
      simp only [handleRESTStorage, hm, hdel, hadm] at hh
      repeat' split at hh
      all_goals try simp only [Option.some.injEq, Prod.mk.injEq] at hh
      all_goals
        first
          | (obtain ⟨h1, h2⟩ := hh; subst h2; exact ⟨rfl, rfl⟩)
          | (exfalso; simp_all)

/-- A handler whose admission gate rejects everything with "denied". -/
def rejectHandler : RESTHandler :=
  { sampleHandler with admissionControl := fun _ => some "denied" }

/-- Witness for C4: a concrete GET trace has no admission call; concrete
Create/Update/Delete traces admit exactly once, between decode and backend;
and a rejecting gate stops a concrete Create before the backend. -/
theorem admission_gate_placement_witness :
    admissionCount [Event.backend "list", Event.selfLink] = 0 ∧
    ([Event.decode,
        Event.admission ⟨some { oPlain with name := "b" }, "n", "foo", "CREATE"⟩,
        Event.backend "create", Event.selfLink].take 3 =
      [Event.decode,
        Event.admission ⟨some { oPlain with name := "b" }, "n", "foo", "CREATE"⟩,
        Event.backend "create"] ∧
      admissionCount [Event.decode,
        Event.admission ⟨some { oPlain with name := "b" }, "n", "foo", "CREATE"⟩,
        Event.backend "create", Event.selfLink] = 1) ∧
    ([Event.admission ⟨none, "n", "foo", "DELETE"⟩, Event.backend "delete"].take 2 =
      [Event.admission ⟨none, "n", "foo", "DELETE"⟩, Event.backend "delete"] ∧
      admissionCount [Event.admission ⟨none, "n", "foo", "DELETE"⟩,
        Event.backend "delete"] = 1) ∧
    handleRESTStorage rejectHandler ["foo"] (sampleReq "POST" "foo") storGood "n" "k" =
      some (errorJSON (ApiErr.other "denied"),
        [Event.decode,
          Event.admission ⟨some { oPlain with name := "b" }, "n", "foo", "CREATE"⟩]) := by
  refine ⟨?_, ?_, ?_, ?_⟩
  · exact admission_gate_placement.1 sampleHandler ["foo"] (sampleReq "GET" "foo")
      storBad "n" "k" (errorJSON (ApiErr.other "setSelfLink error"))
      [Event.backend "list", Event.selfLink] rfl rfl
  · exact (admission_gate_placement.2.1 sampleHandler "foo" (sampleReq "POST" "foo")
      storGood "n" "k" "b" (fun _ => Except.ok srcGood) { oPlain with name := "b" }
      rfl rfl rfl rfl).2 rfl
      { status := 201, body := Body.obj { oPlain with selfLink := "pre/foo/bar" } }
      [Event.decode,
        Event.admission ⟨some { oPlain with name := "b" }, "n", "foo", "CREATE"⟩,
        Event.backend "create", Event.selfLink] rfl
  · exact (admission_gate_placement.2.2.2 sampleHandler "foo" "bar"
      (sampleReq "DELETE" "foo/bar") storGood "n" "k" (fun _ => Except.ok srcDel)
      rfl rfl).2 rfl { status := 200, body := Body.obj oPlain }
      [Event.admission ⟨none, "n", "foo", "DELETE"⟩, Event.backend "delete"] rfl
  · exact (admission_gate_placement.2.1 rejectHandler "foo" (sampleReq "POST" "foo")
      storGood "n" "k" "b" (fun _ => Except.ok srcGood) { oPlain with name := "b" }
      rfl rfl rfl rfl).1 "denied" rfl

/-- C8: every (verb, path-segment-count) pair outside the routing table is
answered with the 404 not-found response and an empty trace, so no backend,
admission or rewrite step runs. -/
theorem unrouted_not_found (h : RESTHandler) (parts : List String) (req : Req)
    (storage : RESTStorage) (nsp kind : String)
    (hun : ¬ ((req.method = "GET" ∧ (parts.length = 1 ∨ parts.length = 2)) ∨
      (req.method = "POST" ∧ parts.length = 1) ∨
      (req.method = "PUT" ∧ parts.length = 2) ∨
      (req.method = "DELETE" ∧ parts.length = 2))) :
    handleRESTStorage h parts req storage nsp kind = some (notFoundResp, []) := by
  by_cases hmg : req.method = "GET"
  · rcases parts with _ | ⟨a, _ | ⟨b, _ | ⟨c, tl⟩⟩⟩
    · simp [handleRESTStorage, hmg]
    · exact absurd (Or.inl ⟨hmg, Or.inl rfl⟩) hun
    · exact absurd (Or.inl ⟨hmg, Or.inr rfl⟩) hun
    · simp [handleRESTStorage, hmg]
  · by_cases hmp : req.method = "POST"
    · rcases parts with _ | ⟨a, _ | ⟨b, tl⟩⟩
      · simp [handleRESTStorage, hmg, hmp]
      · exact absurd (Or.inr (Or.inl ⟨hmp, rfl⟩)) hun
      · simp [handleRESTStorage, hmg, hmp]
    · by_cases hmd : req.method = "DELETE"
      · rcases parts with _ | ⟨a, _ | ⟨b, _ | ⟨c, tl⟩⟩⟩
        · simp [handleRESTStorage, hmg, hmp, hmd]
        · simp [handleRESTStorage, hmg, hmp, hmd]
        · exact absurd (Or.inr (Or.inr (Or.inr ⟨hmd, rfl⟩))) hun
        · simp [handleRESTStorage, hmg, hmp, hmd]
      · by_cases hmu : req.method = "PUT"
        · rcases parts with _ | ⟨a, _ | ⟨b, _ | ⟨c, tl⟩⟩⟩
          · simp [handleRESTStorage, hmg, hmp, hmd, hmu]
          · simp [handleRESTStorage, hmg, hmp, hmd, hmu]
          · exact absurd (Or.inr (Or.inr (Or.inl ⟨hmu, rfl⟩))) hun
          · simp [handleRESTStorage, hmg, hmp, hmd, hmu]
        · simp [handleRESTStorage, hmg, hmp, hmd, hmu]

/-- Witness for C8: a PATCH request, a bare GET with no segments and a POST
with two segments each get the 404 response with the empty trace. -/
theorem unrouted_not_found_witness :
    handleRESTStorage sampleHandler ["foo"] (sampleReq "PATCH" "foo") storGood "n" "k" =
      some (notFoundResp, []) ∧
    handleRESTStorage sampleHandler [] (sampleReq "GET" "") storGood "n" "k" =
      some (notFoundResp, []) ∧
    handleRESTStorage sampleHandler ["foo", "bar"] (sampleReq "POST" "foo/bar")
        storGood "n" "k" =
      some (notFoundResp, []) := by
  refine ⟨?_, ?_, ?_⟩
  · exact unrouted_not_found sampleHandler ["foo"] (sampleReq "PATCH" "foo")
      storGood "n" "k" (by decide)
  · exact unrouted_not_found sampleHandler [] (sampleReq "GET" "")
      storGood "n" "k" (by decide)
  · exact unrouted_not_found sampleHandler ["foo", "bar"] (sampleReq "POST" "foo/bar")
      storGood "n" "k" (by decide)

end KubeAPIServer
